import Mathlib

/-!
Shallow embedding of the `ProcessManager` plugin supervisor of
mcp-plugin-server (`core/process-manager.ts`) and verification of its
specified properties.

The embedding models the manager's state (`PluginProcess` records held in a
map), its operations (`startPlugin`, `spawnPluginProcess`,
`loadPluginCapabilities`, `handlePluginFailure`, `stopPlugin`,
`restartPlugin`, the catalog getters, `executeToolInPlugin`,
`performHealthChecks`), and the externally observable actions those
operations perform (process signals, scheduled timers, RPC traffic toward a
worker, emitted events) as an explicit `Effect` list.  Asynchronous callback
delivery (the `exit` handler of the spawned child process) is modelled as an
explicit step `onProcessExit` that the environment applies when the watched
process exits.  Node.js semantics used: `ChildProcess.killed` becomes true
once `kill()` successfully sends a signal (not when the process exits), and
`StdioClientTransport` launches its own child process when the client
connects, distinct from the process the manager spawned directly.
-/

namespace MCP

/-- Values of the `restartPolicy` config field: "always" | "on-failure" | "never". -/
inductive RestartPolicy
  | always
  | onFailure
  | never
deriving DecidableEq, Repr

/-- Status values of a plugin record, `PluginProcess.status`:
"starting" | "running" | "stopping" | "stopped" | "failed". -/
inductive Status
  | starting
  | running
  | stopping
  | stopped
  | failed
deriving DecidableEq, Repr

/-- An MCP tool advertised by a worker (`name` plus its opaque schema). -/
structure Tool where
  name : String
  inputSchema : String
deriving DecidableEq, Repr

/-- An MCP resource advertised by a worker. -/
structure Resource where
  uri : String
  name : String
deriving DecidableEq, Repr

/-- An MCP prompt advertised by a worker. -/
structure Prompt where
  name : String
deriving DecidableEq, Repr

/-- The descriptor `PluginProcessConfig`: optional fields stay `Option`,
mirroring the TypeScript optional properties. -/
structure PluginProcessConfig where
  name : String
  path : String
  timeout : Option Nat
  restartPolicy : Option RestartPolicy
  maxRestarts : Option Nat
deriving DecidableEq, Repr

/-- The per-plugin record `PluginProcess`.  `processPid` models
`plugin.process` (the directly spawned child; `none` = null),
`processKilled` the Node `ChildProcess.killed` flag, `client` whether
`plugin.client` is non-null, and `transportPid` the pid of the separate
child process launched by the stdio client transport at connect time
(`none` = transport never connected / cleared). -/
structure PluginProcess where
  config : PluginProcessConfig
  processPid : Option Nat
  processKilled : Bool
  client : Bool
  transportPid : Option Nat
  status : Status
  restartCount : Nat
  lastRestart : Option Nat
  tools : List Tool
  resources : List Resource
  prompts : List Prompt
deriving DecidableEq, Repr

/-- Constructor options of `ProcessManager` with their defaults. -/
structure ManagerOptions where
  maxRestarts : Nat := 3
  restartDelay : Nat := 1000
  healthCheckInterval : Nat := 30000
deriving DecidableEq, Repr

/-- The manager: its options and the `plugins` map (insertion-ordered). -/
structure Manager where
  opts : ManagerOptions
  plugins : List (String × PluginProcess)
deriving DecidableEq, Repr

/-- Externally observable actions of an operation. -/
inductive Effect
  /-- A request sent over the MCP client, reaching the worker process with
  the given pid (connect handshake, capability list, tool call). -/
  | rpc (pid : Nat) (method : String)
  /-- A signal sent to the process with the given pid. -/
  | kill (pid : Nat) (signal : String)
  /-- A `setTimeout` scheduling a respawn after `delayMs` (the restart path). -/
  | scheduleRespawn (delayMs : Nat)
  /-- A `setTimeout` scheduling the forced-kill check after `delayMs`. -/
  | scheduleForceKill (delayMs : Nat)
  /-- An event emitted via `this.emit(event, pluginName, ...)`. -/
  | emit (event : String) (pluginName : String)
deriving DecidableEq, Repr

/-- Whether an effect list contains a scheduled respawn. -/
def hasScheduledRespawn (effs : List Effect) : Bool :=
  effs.any fun e =>
    match e with
    | .scheduleRespawn _ => true
    | _ => false

/-- The restart decision of `handlePluginFailure`:
`restartPolicy === "always" || (restartPolicy === "on-failure" &&
restartCount < (config.maxRestarts ?? this.maxRestarts))`. -/
def shouldRestart (opts : ManagerOptions) (p : PluginProcess) : Prop :=
  p.config.restartPolicy = some .always ∨
    (p.config.restartPolicy = some .onFailure ∧
      p.restartCount < p.config.maxRestarts.getD opts.maxRestarts)

instance (opts : ManagerOptions) (p : PluginProcess) :
    Decidable (shouldRestart opts p) := by
  unfold shouldRestart; infer_instance

/-- The `handlePluginFailure` method: set status to failed, drop client/transport/process,
then either schedule a respawn after `restartDelay` (incrementing
`restartCount` and stamping `lastRestart := now`) or emit the terminal
`pluginFailed` event. -/
def handlePluginFailure (opts : ManagerOptions) (now : Nat) (p : PluginProcess) :
    PluginProcess × List Effect :=
  let p1 := { p with status := Status.failed, client := false,
                     transportPid := none, processPid := none }
  if shouldRestart opts p1 then
    ({ p1 with restartCount := p1.restartCount + 1, lastRestart := some now },
      [Effect.scheduleRespawn opts.restartDelay])
  else
    (p1, [Effect.emit "pluginFailed" p1.config.name])

/-- The `exit` handler installed on the directly spawned process:
`plugin.status = code === 0 ? "stopped" : "failed"` followed by an
unconditional `handlePluginFailure`.  `code = none` models exit by signal. -/
def onProcessExit (opts : ManagerOptions) (now : Nat) (code : Option Int)
    (p : PluginProcess) : PluginProcess × List Effect :=
  let p1 := { p with status := if code = some 0 then Status.stopped else Status.failed }
  handlePluginFailure opts now p1

/-- The worker-side responses the environment supplies to one spawn attempt:
whether `client.connect` succeeds, and the results of `listTools`,
`listResources`, `listPrompts` (`none` models the call throwing). -/
structure WorkerResponses where
  connectOk : Bool
  toolsResult : Option (List Tool)
  resourcesResult : Option (List Resource)
  promptsResult : Option (List Prompt)

/-- The responses describe a fully successful startup. -/
def goodResponses (w : WorkerResponses) : Prop :=
  w.connectOk = true ∧ (∃ ts, w.toolsResult = some ts) ∧
    (∃ rs, w.resourcesResult = some rs) ∧ (∃ qs, w.promptsResult = some qs)

/-- The `loadPluginCapabilities` method: returns early if the client is null; otherwise
queries tools, resources, prompts in order, assigning each result as it
arrives, and rethrows on the first failure (the `Bool` is `true` on
success).  The queries travel over the client, i.e. to the transport's
process.  No validation of the returned entries is performed. -/
def loadPluginCapabilities (w : WorkerResponses) (p : PluginProcess) :
    PluginProcess × Bool × List Effect :=
  if p.client = false then (p, true, [])
  else
    let pid := p.transportPid.getD 0
    match w.toolsResult with
    | none => (p, false, [Effect.rpc pid "tools/list"])
    | some ts =>
      let p1 := { p with tools := ts }
      match w.resourcesResult with
      | none => (p1, false, [Effect.rpc pid "tools/list", Effect.rpc pid "resources/list"])
      | some rs =>
        let p2 := { p1 with resources := rs }
        match w.promptsResult with
        | none => (p2, false,
            [Effect.rpc pid "tools/list", Effect.rpc pid "resources/list",
             Effect.rpc pid "prompts/list"])
        | some qs =>
          ({ p2 with prompts := qs }, true,
            [Effect.rpc pid "tools/list", Effect.rpc pid "resources/list",
             Effect.rpc pid "prompts/list"])

/-- The `spawnPluginProcess` method: `spawn()` creates a child process directly
(pid `nextPid`); a `StdioClientTransport` is constructed with its own copy
of the same command, and launches its own, second child process
(pid `nextPid + 1`) when `client.connect(transport)` runs.  On connect
success the capabilities are loaded over the client and the record becomes
running; on connect or load failure the record is marked failed and
`handlePluginFailure` runs. -/
def spawnPluginProcess (opts : ManagerOptions) (now nextPid : Nat)
    (w : WorkerResponses) (p : PluginProcess) : PluginProcess × List Effect :=
  let p1 := { p with processPid := some nextPid, processKilled := false,
                     client := true }
  if w.connectOk then
    let p2 := { p1 with transportPid := some (nextPid + 1) }
    let connectEffs := [Effect.rpc (nextPid + 1) "initialize"]
    let r := loadPluginCapabilities w p2
    if r.2.1 then
      ({ r.1 with status := Status.running },
        connectEffs ++ r.2.2 ++ [Effect.emit "pluginStarted" p.config.name])
    else
      let f := handlePluginFailure opts now { r.1 with status := Status.failed }
      (f.1, connectEffs ++ r.2.2 ++ f.2)
  else
    let f := handlePluginFailure opts now { p1 with status := Status.failed }
    (f.1, f.2)

/-- The fresh record `startPlugin` creates before the first spawn. -/
def mkPluginProcess (config : PluginProcessConfig) : PluginProcess :=
  { config := config, processPid := none, processKilled := false,
    client := false, transportPid := none, status := Status.starting,
    restartCount := 0, lastRestart := none, tools := [], resources := [],
    prompts := [] }

/-- The `stopPlugin` method on a managed record: set stopping, close the client, send
SIGTERM to the directly spawned process when present and not yet signalled
(`kill()` sets the `killed` flag), schedule the forced-kill check after
`config.timeout ?? 30000`, then set stopped and emit `pluginStopped`. -/
def stopPlugin (p : PluginProcess) : PluginProcess × List Effect :=
  let p1 := { p with status := Status.stopping }
  let killStep : PluginProcess × List Effect :=
    match p1.processPid with
    | some pid =>
      if p1.processKilled = false then
        ({ p1 with processKilled := true },
          [Effect.kill pid "SIGTERM",
           Effect.scheduleForceKill (p1.config.timeout.getD 30000)])
      else (p1, [])
    | none => (p1, [])
  ({ killStep.1 with status := Status.stopped },
    killStep.2 ++ [Effect.emit "pluginStopped" p.config.name])

/-- The forced-kill timer body: SIGKILL only if the process exists and
`killed` is still false (it never is after a successful SIGTERM). -/
def forceKillTimerFires (p : PluginProcess) : List Effect :=
  match p.processPid with
  | some pid => if p.processKilled = false then [Effect.kill pid "SIGKILL"] else []
  | none => []

/-- The `restartPlugin` method on a managed record: stop, wait 1000 ms for cleanup,
reset `restartCount` to 0, then respawn. -/
def restartPlugin (opts : ManagerOptions) (now nextPid : Nat)
    (w : WorkerResponses) (p : PluginProcess) : PluginProcess × List Effect :=
  let s := stopPlugin p
  let p1 := { s.1 with restartCount := 0 }
  let sp := spawnPluginProcess opts now nextPid w p1
  (sp.1, s.2 ++ sp.2)

/-- The `getAllTools` method: for each running plugin, its tools namespaced as
`pluginName + "." + tool.name`. -/
def getAllTools (m : Manager) : List Tool :=
  m.plugins.flatMap fun np =>
    if np.2.status = Status.running then
      np.2.tools.map fun t => { t with name := np.1 ++ "." ++ t.name }
    else []

/-- The `getAllResources` method: for each running plugin, its resources pushed
verbatim (no namespacing). -/
def getAllResources (m : Manager) : List Resource :=
  m.plugins.flatMap fun np =>
    if np.2.status = Status.running then np.2.resources else []

/-- The `getAllPrompts` method: for each running plugin, its prompts namespaced as
`pluginName + "." + prompt.name`. -/
def getAllPrompts (m : Manager) : List Prompt :=
  m.plugins.flatMap fun np =>
    if np.2.status = Status.running then
      np.2.prompts.map fun q => { q with name := np.1 ++ "." ++ q.name }
    else []

/-- Errors thrown by `executeToolInPlugin`. -/
inductive ExecError
  | notFound (pluginName : String)
  | notRunning (pluginName : String)
deriving DecidableEq, Repr

/-- Map lookup, `this.plugins.get(name)`. -/
def lookupPlugin : List (String × PluginProcess) → String → Option PluginProcess
  | [], _ => none
  | np :: rest, n => if np.1 = n then some np.2 else lookupPlugin rest n

/-- The `executeToolInPlugin` method: throws not-found when unmanaged, not-running when
the status is not running or the client is null — in both cases before any
traffic toward a worker; otherwise performs `client.callTool`, which reaches
the transport's process. -/
def executeToolInPlugin (m : Manager) (pluginName toolName : String) :
    Except ExecError Unit × List Effect :=
  match lookupPlugin m.plugins pluginName with
  | none => (Except.error (ExecError.notFound pluginName), [])
  | some p =>
    if p.status ≠ Status.running ∨ p.client = false then
      (Except.error (ExecError.notRunning pluginName), [])
    else
      (Except.ok (), [Effect.rpc (p.transportPid.getD 0) ("tools/call " ++ toolName)])

/-- The probe environment of one health-check round: for each plugin name,
how long its `listTools` probe takes and whether it succeeds. -/
structure ProbeEnv where
  dur : String → Nat
  ok : String → Bool

/-- The plugins `performHealthChecks` probes: those with status running and
a non-null client, in map-iteration order. -/
def probeTargets (m : Manager) : List (String × PluginProcess) :=
  m.plugins.filter fun np => np.2.status = Status.running ∧ np.2.client = true

/-- Timing of the probe loop of `performHealthChecks`: the loop body
`await plugin.client.listTools()` suspends until the probe completes, so the
next iteration starts only after the current probe finishes.  Given the
start time `t` of the round, this returns each probed plugin paired with the
time its probe is issued. -/
def probeSchedule (env : ProbeEnv) : List (String × PluginProcess) → Nat →
    List (String × Nat)
  | [], _ => []
  | np :: rest, t => (np.1, t) :: probeSchedule env rest (t + env.dur np.1)

/-- Issue times of the probes of one `performHealthChecks` round starting at
time 0. -/
def performHealthChecksSchedule (m : Manager) (env : ProbeEnv) :
    List (String × Nat) :=
  probeSchedule env (probeTargets m) 0

/-- State change of one `performHealthChecks` round: every running plugin
with a client whose probe fails goes through `handlePluginFailure`. -/
def performHealthChecksUpdate (opts : ManagerOptions) (now : Nat)
    (env : ProbeEnv) (m : Manager) : Manager :=
  { m with plugins := m.plugins.map fun np =>
      if np.2.status = Status.running ∧ np.2.client = true ∧ env.ok np.1 = false then
        (np.1, (handlePluginFailure opts now np.2).1)
      else np }

/-- One crash observed by the manager: the direct process exits with a
nonzero code, the exit handler and `handlePluginFailure` run, and when a
respawn was scheduled the respawn timer later fires and the spawn succeeds
(responses `w`).  Returns the record afterwards and whether a respawn was
scheduled. -/
def crashStep (opts : ManagerOptions) (now nextPid : Nat) (w : WorkerResponses)
    (p : PluginProcess) : PluginProcess × Bool :=
  let r := onProcessExit opts now (some 1) p
  if hasScheduledRespawn r.2 then
    ((spawnPluginProcess opts now nextPid w r.1).1, true)
  else (r.1, false)

/-- Runs `n` consecutive crashes (each followed by its successful automatic
respawn when one was scheduled); also counts how many automatic restarts
were scheduled along the way. -/
def crashRun (opts : ManagerOptions) (now nextPid : Nat) (w : WorkerResponses) :
    Nat → PluginProcess → PluginProcess × Nat
  | 0, p => (p, 0)
  | n + 1, p =>
    let s := crashStep opts now nextPid w p
    let r := crashRun opts now nextPid w n s.1
    (r.1, (if s.2 then 1 else 0) + r.2)

/-! Concrete fixtures used by witnesses and counterexamples. -/

/-- Default manager options (`maxRestarts 3, restartDelay 1000`). -/
def defOpts : ManagerOptions := {}

/-- A concrete descriptor named "p". -/
def exConfig : PluginProcessConfig :=
  { name := "p", path := "plugins/p", timeout := some 30000,
    restartPolicy := some RestartPolicy.onFailure, maxRestarts := some 2 }

/-- A concrete running record for plugin "p" with one tool, one resource and
one prompt. -/
def exRunning : PluginProcess :=
  { config := exConfig, processPid := some 10, processKilled := false,
    client := true, transportPid := some 11, status := Status.running,
    restartCount := 0, lastRestart := none,
    tools := [{ name := "t", inputSchema := "s" }],
    resources := [{ uri := "file:///x", name := "r" }],
    prompts := [{ name := "q" }] }

/-- A stopped record for plugin "s" that still holds a capability snapshot. -/
def exStopped : PluginProcess :=
  { exRunning with
    config := { exConfig with name := "s" },
    status := Status.stopped, client := false, processPid := none }

/-- A manager holding the running plugin "p" and the stopped plugin "s". -/
def exMgr : Manager :=
  { opts := defOpts, plugins := [("p", exRunning), ("s", exStopped)] }

/-- Worker responses of a fully successful startup with a duplicate local
tool name in the tools batch. -/
def dupW : WorkerResponses :=
  { connectOk := true,
    toolsResult := some [{ name := "a", inputSchema := "s1" },
                         { name := "a", inputSchema := "s2" }],
    resourcesResult := some [], promptsResult := some [] }

/-- Worker responses of a fully successful startup with singleton batches. -/
def okW : WorkerResponses :=
  { connectOk := true,
    toolsResult := some [{ name := "t", inputSchema := "s" }],
    resourcesResult := some [{ uri := "file:///x", name := "r" }],
    promptsResult := some [{ name := "q" }] }

/-- A record with restartPolicy "always", running with a live process:
input of the stop-then-exit scenario. -/
def exAlways : PluginProcess :=
  { exRunning with
    config := { exConfig with restartPolicy := some RestartPolicy.always } }

/-- The stop-initiated termination scenario: `stopPlugin` runs, then the
SIGTERM-killed process's `exit` event fires (`code = null`). -/
def stopThenExit (opts : ManagerOptions) (now : Nat) (p : PluginProcess) :
    PluginProcess × List Effect :=
  let s := stopPlugin p
  let e := onProcessExit opts now none s.1
  (e.1, s.2 ++ e.2)

/-- Two running plugins "a" and "b" probed by one health-check round. -/
def hcMgr : Manager :=
  { opts := defOpts,
    plugins := [("a", exRunning), ("b", { exRunning with
      config := { exConfig with name := "b" } })] }

/-- Probe environment where worker "a" is slow (5000 ms) and "b" fast. -/
def slowEnv : ProbeEnv := { dur := fun n => if n = "a" then 5000 else 1, ok := fun _ => true }

/-- Probe environment where both workers answer instantly. -/
def fastEnv : ProbeEnv := { dur := fun _ => 0, ok := fun _ => true }

/-- A manager equal to `m` except that every non-running plugin's stored
capability snapshot is emptied. -/
def wipeNonRunningSnapshots (m : Manager) : Manager :=
  { m with plugins := m.plugins.map fun np =>
      if np.2.status = Status.running then np
      else (np.1, { np.2 with tools := [], resources := [], prompts := [] }) }

/-- The record produced by a successful spawn whose tools batch carries a
duplicate local name. -/
def dupSpawned : PluginProcess :=
  (spawnPluginProcess defOpts 0 10 dupW (mkPluginProcess exConfig)).1

/-- A manager holding only the duplicate-batch plugin. -/
def dupMgr : Manager := { opts := defOpts, plugins := [("p", dupSpawned)] }


/-- Claim C1: whenever the failure-handling path (`handlePluginFailure`) runs,
the record transitions to Failed; an automatic restart is scheduled if and
only if the restart policy is always, or it is on-failure and the current
`restartCount` is strictly below the descriptor's `maxRestarts`; when a
restart is scheduled, `restartCount` is incremented by exactly one and the
respawn is scheduled after the configured `restartDelay`; otherwise the
count is unchanged, the terminal `pluginFailed` notification is emitted, and
no respawn is scheduled. -/
theorem C1_failure_handling (opts : ManagerOptions) (now : Nat)
    (p : PluginProcess) (mr : Nat) (hmr : p.config.maxRestarts = some mr) :
    (handlePluginFailure opts now p).1.status = Status.failed ∧
    (hasScheduledRespawn (handlePluginFailure opts now p).2 = true ↔
      (p.config.restartPolicy = some RestartPolicy.always ∨
        (p.config.restartPolicy = some RestartPolicy.onFailure ∧ p.restartCount < mr))) ∧
    (hasScheduledRespawn (handlePluginFailure opts now p).2 = true →
      (handlePluginFailure opts now p).1.restartCount = p.restartCount + 1 ∧
        Effect.scheduleRespawn opts.restartDelay ∈ (handlePluginFailure opts now p).2) ∧
    (hasScheduledRespawn (handlePluginFailure opts now p).2 = false →
      (handlePluginFailure opts now p).1.restartCount = p.restartCount ∧
        Effect.emit "pluginFailed" p.config.name ∈ (handlePluginFailure opts now p).2 ∧
        ∀ d, Effect.scheduleRespawn d ∉ (handlePluginFailure opts now p).2) := by
  simp only [handlePluginFailure]
  split
  next h =>
    unfold shouldRestart at h
    simp only [hmr] at h
    simp_all [hasScheduledRespawn]
  next h =>
    unfold shouldRestart at h
    simp only [hmr] at h
    simp_all [hasScheduledRespawn]


/-- Witness for C1 at a concrete record. -/
theorem C1_failure_handling_witness :
    (handlePluginFailure defOpts 0 exRunning).1.status = Status.failed :=
  (C1_failure_handling defOpts 0 exRunning 2 rfl).1

theorem load_preserves (w : WorkerResponses) (p : PluginProcess) :
    (loadPluginCapabilities w p).1.restartCount = p.restartCount ∧
    (loadPluginCapabilities w p).1.config = p.config ∧
    (loadPluginCapabilities w p).1.status = p.status := by
  rcases hts : w.toolsResult with _ | ts <;>
    rcases hrs : w.resourcesResult with _ | rs <;>
    rcases hqs : w.promptsResult with _ | qs <;>
    by_cases hc : p.client = false <;>
    simp [loadPluginCapabilities, hts, hrs, hqs, hc]

theorem spawn_good (opts : ManagerOptions) (now nextPid : Nat)
    (w : WorkerResponses) (p : PluginProcess) (hw : goodResponses w) :
    (spawnPluginProcess opts now nextPid w p).1.status = Status.running ∧
    (spawnPluginProcess opts now nextPid w p).1.restartCount = p.restartCount ∧
    (spawnPluginProcess opts now nextPid w p).1.config = p.config ∧
    (spawnPluginProcess opts now nextPid w p).1.client = true ∧
    (spawnPluginProcess opts now nextPid w p).1.processPid = some nextPid ∧
    (spawnPluginProcess opts now nextPid w p).1.processKilled = false ∧
    (spawnPluginProcess opts now nextPid w p).1.transportPid = some (nextPid + 1) := by
  obtain ⟨hc, ⟨ts, hts⟩, ⟨rs, hrs⟩, ⟨qs, hqs⟩⟩ := hw
  simp [spawnPluginProcess, loadPluginCapabilities, hc, hts, hrs, hqs]


theorem getters_wipe (l : List (String × PluginProcess)) (opts : ManagerOptions) :
    getAllTools { opts := opts, plugins := l } =
      getAllTools (wipeNonRunningSnapshots { opts := opts, plugins := l }) ∧
    getAllResources { opts := opts, plugins := l } =
      getAllResources (wipeNonRunningSnapshots { opts := opts, plugins := l }) ∧
    getAllPrompts { opts := opts, plugins := l } =
      getAllPrompts (wipeNonRunningSnapshots { opts := opts, plugins := l }) := by
  induction l with
  | nil => exact ⟨rfl, rfl, rfl⟩
  | cons x xs ih =>
    by_cases h : x.2.status = Status.running <;>
      simp_all [getAllTools, getAllResources, getAllPrompts, wipeNonRunningSnapshots, h]

/-- Claim C4: the aggregated catalog (`getAllTools`, `getAllResources`,
`getAllPrompts`) draws only from plugins whose status is running — emptying
the stored capability snapshots of every non-running plugin leaves all three
getters unchanged — while `handlePluginFailure` retains the failed record's
stored tools/resources/prompts snapshot. -/
theorem C4_catalog_only_running (m : Manager) (opts : ManagerOptions) (now : Nat)
    (p : PluginProcess) :
    getAllTools m = getAllTools (wipeNonRunningSnapshots m) ∧
    getAllResources m = getAllResources (wipeNonRunningSnapshots m) ∧
    getAllPrompts m = getAllPrompts (wipeNonRunningSnapshots m) ∧
    (handlePluginFailure opts now p).1.tools = p.tools ∧
    (handlePluginFailure opts now p).1.resources = p.resources ∧
    (handlePluginFailure opts now p).1.prompts = p.prompts := by
  refine ⟨(getters_wipe m.plugins m.opts).1, (getters_wipe m.plugins m.opts).2.1,
    (getters_wipe m.plugins m.opts).2.2, ?_, ?_, ?_⟩ <;>
    (simp only [handlePluginFailure]; split <;> simp)

/-- Claim C8: `executeToolInPlugin` on a name with no record fails
immediately with a not-found error, and on a record whose status is not
running fails immediately with a not-running error; in both cases the effect
list is empty, so no I/O toward any worker is performed and the call cannot
hang. -/
theorem C8_fail_fast (m : Manager) (pn tn : String) :
    (lookupPlugin m.plugins pn = none →
      executeToolInPlugin m pn tn = (Except.error (ExecError.notFound pn), [])) ∧
    (∀ p, lookupPlugin m.plugins pn = some p → p.status ≠ Status.running →
      executeToolInPlugin m pn tn = (Except.error (ExecError.notRunning pn), [])) := by
  constructor
  · intro h
    simp [executeToolInPlugin, h]
  · intro p h hs
    simp only [executeToolInPlugin, h]
    rw [if_pos (Or.inl hs)]

/-- Witness for C8. -/
theorem C8_fail_fast_witness :
    executeToolInPlugin exMgr "ghost" "t" = (Except.error (ExecError.notFound "ghost"), []) ∧
    executeToolInPlugin exMgr "s" "t" = (Except.error (ExecError.notRunning "s"), []) :=
  ⟨(C8_fail_fast exMgr "ghost" "t").1 (by decide),
   (C8_fail_fast exMgr "s" "t").2 exStopped (by decide) (by decide)⟩


/-- Counterexample to claim C3: a capability batch whose tools carry the
duplicate local name "a" is not rejected — the spawn completes with the
owner running, both duplicate entries stored on the record, and the catalog
exposing the qualified name "p.a" twice. -/
theorem C3_counterexample :
    dupSpawned.status = Status.running ∧
    dupSpawned.tools = [{ name := "a", inputSchema := "s1" },
                        { name := "a", inputSchema := "s2" }] ∧
    (getAllTools dupMgr).map Tool.name = ["p.a", "p.a"] := by decide

/-- Claim C3 amended: a capability-load batch is never rejected for
duplicate local names — `loadPluginCapabilities` performs no duplicate
detection, stores every successful batch verbatim (duplicates included), and
reports success, so the owner is not marked Failed. -/
theorem C3_amended_no_dup_check (w : WorkerResponses) (p : PluginProcess)
    (ts : List Tool) (rs : List Resource) (qs : List Prompt)
    (hc : p.client = true) (hts : w.toolsResult = some ts)
    (hrs : w.resourcesResult = some rs) (hqs : w.promptsResult = some qs) :
    (loadPluginCapabilities w p).2.1 = true ∧
    (loadPluginCapabilities w p).1.tools = ts ∧
    (loadPluginCapabilities w p).1.resources = rs ∧
    (loadPluginCapabilities w p).1.prompts = qs := by
  simp [loadPluginCapabilities, hc, hts, hrs, hqs]

/-- Witness for C3 amended. -/
theorem C3_amended_witness :
    (loadPluginCapabilities dupW exRunning).2.1 = true ∧
    (loadPluginCapabilities dupW exRunning).1.tools =
      [{ name := "a", inputSchema := "s1" }, { name := "a", inputSchema := "s2" }] ∧
    (loadPluginCapabilities dupW exRunning).1.resources = [] ∧
    (loadPluginCapabilities dupW exRunning).1.prompts = [] :=
  C3_amended_no_dup_check dupW exRunning _ _ _ rfl rfl rfl rfl

/-- Claim C5 (code bug): `stopPlugin` does mark the record Stopped, but the
stop-initiated process exit (killed by SIGTERM, so with a non-zero exit
code) fires the exit handler, which routes the record through
`handlePluginFailure`: the record ends up Failed with `restartCount`
incremented and, under restart policy always, an automatic respawn of the
deliberately stopped plugin is scheduled. -/
theorem C5_stop_then_exit_enters_failure_path :
    (stopPlugin exAlways).1.status = Status.stopped ∧
    (stopThenExit defOpts 0 exAlways).1.status = Status.failed ∧
    (stopThenExit defOpts 0 exAlways).1.restartCount = 1 ∧
    hasScheduledRespawn (stopThenExit defOpts 0 exAlways).2 = true := by decide

/-- Counterexample to claim C7: the resource of the running plugin "p" with
local name "r" appears in the aggregated catalog under its original name
"r", not under the owner-prefixed qualified name "p.r". -/
theorem C7_counterexample :
    (getAllResources exMgr).map Resource.name = ["r"] ∧
    "p" ++ "." ++ "r" ∉ (getAllResources exMgr).map Resource.name := by decide


/-- Claim C7 amended: every tool and prompt entry of the aggregated catalog
is identified by the owner's name, a dot, and the capability's local name,
and each running plugin's tools and prompts appear in the catalog under
those owner-prefixed names; its resources, however, appear verbatim with
their original unqualified names. -/
theorem C7_amended_qualified_names (m : Manager) (name : String) (p : PluginProcess)
    (hmem : (name, p) ∈ m.plugins) (hrun : p.status = Status.running) :
    (∀ t ∈ p.tools, ({ t with name := name ++ "." ++ t.name } : Tool) ∈ getAllTools m) ∧
    (∀ q ∈ p.prompts, ({ q with name := name ++ "." ++ q.name } : Prompt) ∈ getAllPrompts m) ∧
    (∀ r ∈ p.resources, r ∈ getAllResources m) ∧
    (∀ t2 ∈ getAllTools m, ∃ o q, (o, q) ∈ m.plugins ∧ q.status = Status.running ∧
      ∃ t0 ∈ q.tools, t2 = { t0 with name := o ++ "." ++ t0.name }) ∧
    (∀ q2 ∈ getAllPrompts m, ∃ o q, (o, q) ∈ m.plugins ∧ q.status = Status.running ∧
      ∃ q0 ∈ q.prompts, q2 = { q0 with name := o ++ "." ++ q0.name }) := by
  refine ⟨?_, ?_, ?_, ?_, ?_⟩
  · intro t ht
    refine List.mem_flatMap.mpr ⟨(name, p), hmem, ?_⟩
    simp [hrun]
    exact ⟨t, ht, rfl, rfl⟩
  · intro q hq
    refine List.mem_flatMap.mpr ⟨(name, p), hmem, ?_⟩
    simp [hrun]
    exact ⟨q, hq, rfl⟩
  · intro r hr
    refine List.mem_flatMap.mpr ⟨(name, p), hmem, ?_⟩
    simp [hrun, hr]
  · intro t2 ht2
    obtain ⟨np, hnp, ht⟩ := List.mem_flatMap.mp ht2
    by_cases h : np.2.status = Status.running
    · rw [if_pos h] at ht
      obtain ⟨t0, ht0, rfl⟩ := List.mem_map.mp ht
      exact ⟨np.1, np.2, hnp, h, t0, ht0, rfl⟩
    · rw [if_neg h] at ht
      exact absurd ht (List.not_mem_nil _)
  · intro q2 hq2
    obtain ⟨np, hnp, hq⟩ := List.mem_flatMap.mp hq2
    by_cases h : np.2.status = Status.running
    · rw [if_pos h] at hq
      obtain ⟨q0, hq0, rfl⟩ := List.mem_map.mp hq
      exact ⟨np.1, np.2, hnp, h, q0, hq0, rfl⟩
    · rw [if_neg h] at hq
      exact absurd hq (List.not_mem_nil _)

/-- Witness for C7 amended. -/
theorem C7_amended_witness :
    ({ name := "p" ++ "." ++ "t", inputSchema := "s" } : Tool) ∈ getAllTools exMgr ∧
    ({ uri := "file:///x", name := "r" } : Resource) ∈ getAllResources exMgr :=
  ⟨(C7_amended_qualified_names exMgr "p" exRunning (by decide) rfl).1
      { name := "t", inputSchema := "s" } (by decide),
   (C7_amended_qualified_names exMgr "p" exRunning (by decide) rfl).2.2.1
      { uri := "file:///x", name := "r" } (by decide)⟩


theorem stop_preserves (p : PluginProcess) :
    (stopPlugin p).1.restartCount = p.restartCount ∧
    (stopPlugin p).1.config = p.config := by
  rcases h : p.processPid with _ | pid <;>
    by_cases hk : p.processKilled = false <;>
    simp [stopPlugin, h, hk]

theorem handle_count (opts : ManagerOptions) (now : Nat) (p : PluginProcess) :
    (handlePluginFailure opts now p).1.restartCount = p.restartCount ∨
    (handlePluginFailure opts now p).1.restartCount = p.restartCount + 1 := by
  simp only [handlePluginFailure]
  split
  · right; rfl
  · left; rfl

theorem spawn_count (opts : ManagerOptions) (now nextPid : Nat)
    (w : WorkerResponses) (p : PluginProcess) :
    (spawnPluginProcess opts now nextPid w p).1.restartCount = p.restartCount ∨
    (spawnPluginProcess opts now nextPid w p).1.restartCount = p.restartCount + 1 := by
  rcases hco : w.connectOk with _ | _ <;>
    rcases hts : w.toolsResult with _ | ts <;>
    rcases hrs : w.resourcesResult with _ | rs <;>
    rcases hqs : w.promptsResult with _ | qs <;>
    · simp only [spawnPluginProcess, loadPluginCapabilities, hco, hts, hrs, hqs]
      first
      | (simp only [Bool.false_eq_true, if_false, if_true]
         exact handle_count _ _ _)
      | simp [handlePluginFailure]


/-- Claim C6: the manual `restartPlugin` resets `restartCount` to exactly 0
before respawning (so a successful manual restart ends with count 0 for any
prior value), while no other operation resets a positive `restartCount` to
zero: `stopPlugin` preserves it, and `handlePluginFailure`, the exit
handler, and `spawnPluginProcess` never decrease it. -/
theorem C6_restart_resets_count (opts : ManagerOptions) (now nextPid : Nat)
    (w wAny : WorkerResponses) (code : Option Int) (p : PluginProcess)
    (hw : goodResponses w) :
    (restartPlugin opts now nextPid w p).1.restartCount = 0 ∧
    (stopPlugin p).1.restartCount = p.restartCount ∧
    (0 < p.restartCount → 0 < (handlePluginFailure opts now p).1.restartCount) ∧
    (0 < p.restartCount → 0 < (onProcessExit opts now code p).1.restartCount) ∧
    (0 < p.restartCount → 0 < (spawnPluginProcess opts now nextPid wAny p).1.restartCount) := by
  refine ⟨?_, (stop_preserves p).1, ?_, ?_, ?_⟩
  · unfold restartPlugin
    have h := spawn_good opts now nextPid w { (stopPlugin p).1 with restartCount := 0 } hw
    simpa using h.2.1
  · rcases handle_count opts now p with h | h <;> omega
  · unfold onProcessExit
    rcases handle_count opts now
        { p with status := if code = some 0 then Status.stopped else Status.failed } with h | h <;>
      simp only [h] <;> intro hp <;> omega
  · rcases spawn_count opts now nextPid wAny p with h | h <;> omega

/-- Witness for C6. -/
theorem C6_restart_resets_count_witness :
    (restartPlugin defOpts 0 10 okW exRunning).1.restartCount = 0 :=
  (C6_restart_resets_count defOpts 0 10 okW okW (some 0) exRunning
    ⟨rfl, ⟨_, rfl⟩, ⟨_, rfl⟩, ⟨_, rfl⟩⟩).1


theorem crashStep_restart (opts : ManagerOptions) (now nextPid : Nat)
    (w : WorkerResponses) (p : PluginProcess) (hw : goodResponses w) (k : Nat)
    (hpol : p.config.restartPolicy = some RestartPolicy.onFailure)
    (hmax : p.config.maxRestarts = some k)
    (hlt : p.restartCount < k) :
    (crashStep opts now nextPid w p).2 = true ∧
    (crashStep opts now nextPid w p).1.status = Status.running ∧
    (crashStep opts now nextPid w p).1.restartCount = p.restartCount + 1 ∧
    (crashStep opts now nextPid w p).1.config = p.config := by
  obtain ⟨hc, ⟨ts, hts⟩, ⟨rs, hrs⟩, ⟨qs, hqs⟩⟩ := hw
  simp [crashStep, onProcessExit, handlePluginFailure, shouldRestart, hpol, hmax, hlt,
    hasScheduledRespawn, spawnPluginProcess, loadPluginCapabilities, hc, hts, hrs, hqs]

theorem crashStep_exhausted (opts : ManagerOptions) (now nextPid : Nat)
    (w : WorkerResponses) (p : PluginProcess) (k : Nat)
    (hpol : p.config.restartPolicy = some RestartPolicy.onFailure)
    (hmax : p.config.maxRestarts = some k)
    (hge : ¬ p.restartCount < k) :
    (crashStep opts now nextPid w p).2 = false ∧
    (crashStep opts now nextPid w p).1.status = Status.failed ∧
    (crashStep opts now nextPid w p).1.restartCount = p.restartCount := by
  simp [crashStep, onProcessExit, handlePluginFailure, shouldRestart, hpol, hmax, hge,
    hasScheduledRespawn]


theorem crashRun_exhausts (opts : ManagerOptions) (now nextPid : Nat)
    (w : WorkerResponses) (hw : goodResponses w) (k : Nat) :
    ∀ (n : Nat) (p : PluginProcess),
    p.config.restartPolicy = some RestartPolicy.onFailure →
    p.config.maxRestarts = some k →
    p.restartCount + n = k →
    (crashRun opts now nextPid w (n + 1) p).2 = n ∧
    (crashRun opts now nextPid w (n + 1) p).1.status = Status.failed ∧
    (crashRun opts now nextPid w (n + 1) p).1.restartCount = k := by
  intro n
  induction n with
  | zero =>
    intro p hpol hmax hsum
    have hge : ¬ p.restartCount < k := by omega
    obtain ⟨h1, h2, h3⟩ := crashStep_exhausted opts now nextPid w p k hpol hmax hge
    simp [crashRun, h1, h2, h3]
    omega
  | succ n ih =>
    intro p hpol hmax hsum
    have hlt : p.restartCount < k := by omega
    obtain ⟨h1, h2, h3, h4⟩ := crashStep_restart opts now nextPid w p hw k hpol hmax hlt
    have ihr := ih (crashStep opts now nextPid w p).1
      (by rw [h4]; exact hpol) (by rw [h4]; exact hmax) (by omega)
    rw [crashRun]
    simp only [h1, if_true]
    refine ⟨?_, ihr.2.1, ihr.2.2⟩
    rw [ihr.1]
    omega


/-- Claim C2: with `restartPolicy` on-failure and `maxRestarts = k`, a run
of `k + 1` consecutive crashes (each followed by its successful automatic
respawn while one is scheduled) produces exactly `k` automatic restart
attempts; after the final crash the record is Failed with `restartCount = k`
and no further restart was scheduled, and the aggregated catalog holds no
entry owned by that plugin. -/
theorem C2_on_failure_budget (opts : ManagerOptions) (now nextPid : Nat)
    (w : WorkerResponses) (k : Nat) (p : PluginProcess) (name : String)
    (hw : goodResponses w)
    (hpol : p.config.restartPolicy = some RestartPolicy.onFailure)
    (hmax : p.config.maxRestarts = some k)
    (hcount : p.restartCount = 0) :
    (crashRun opts now nextPid w (k + 1) p).2 = k ∧
    (crashRun opts now nextPid w (k + 1) p).1.status = Status.failed ∧
    (crashRun opts now nextPid w (k + 1) p).1.restartCount = k ∧
    getAllTools { opts := opts, plugins := [(name, (crashRun opts now nextPid w (k + 1) p).1)] } = [] ∧
    getAllResources { opts := opts, plugins := [(name, (crashRun opts now nextPid w (k + 1) p).1)] } = [] ∧
    getAllPrompts { opts := opts, plugins := [(name, (crashRun opts now nextPid w (k + 1) p).1)] } = [] := by
  have h := crashRun_exhausts opts now nextPid w hw k k p hpol hmax (by omega)
  refine ⟨h.1, h.2.1, h.2.2, ?_, ?_, ?_⟩ <;>
    simp [getAllTools, getAllResources, getAllPrompts, h.2.1]

/-- Witness for C2 with the spec's end-to-end scenario (`maxRestarts = 2`,
three consecutive crashes). -/
theorem C2_on_failure_budget_witness :
    (crashRun defOpts 0 10 okW 3 (mkPluginProcess exConfig)).2 = 2 ∧
    (crashRun defOpts 0 10 okW 3 (mkPluginProcess exConfig)).1.status = Status.failed ∧
    (crashRun defOpts 0 10 okW 3 (mkPluginProcess exConfig)).1.restartCount = 2 ∧
    getAllTools { opts := defOpts, plugins := [("echo", (crashRun defOpts 0 10 okW 3 (mkPluginProcess exConfig)).1)] } = [] :=
  have h := C2_on_failure_budget defOpts 0 10 okW 2 (mkPluginProcess exConfig) "echo"
    ⟨rfl, ⟨_, rfl⟩, ⟨_, rfl⟩, ⟨_, rfl⟩⟩ rfl rfl rfl
  ⟨h.1, h.2.1, h.2.2.1, h.2.2.2.1⟩


/-- Counterexample to claim C9: in one health-check round over the running
workers "a" and "b", worker "b"'s probe is issued at time 5000 when "a"'s
probe takes 5000 ms but at time 0 when "a" answers instantly — a slow probe
of one worker delays the probe of another, refuting independence. -/
theorem C9_counterexample :
    performHealthChecksSchedule hcMgr slowEnv = [("a", 0), ("b", 5000)] ∧
    performHealthChecksSchedule hcMgr fastEnv = [("a", 0), ("b", 0)] ∧
    (performHealthChecksSchedule hcMgr slowEnv ≠ performHealthChecksSchedule hcMgr fastEnv) := by
  decide

theorem probeSchedule_head (env : ProbeEnv) (l : List (String × PluginProcess))
    (t : Nat) (h : 0 < (probeSchedule env l t).length) :
    ((probeSchedule env l t).get ⟨0, h⟩).2 = t := by
  cases l with
  | nil => simp [probeSchedule] at h
  | cons x xs => rfl

theorem probeSchedule_step (env : ProbeEnv) :
    ∀ (l : List (String × PluginProcess)) (t i : Nat)
      (h : i + 1 < (probeSchedule env l t).length),
    ((probeSchedule env l t).get ⟨i + 1, h⟩).2 =
      ((probeSchedule env l t).get ⟨i, by omega⟩).2 +
        env.dur ((probeSchedule env l t).get ⟨i, by omega⟩).1 := by
  intro l
  induction l with
  | nil => intro t i h; simp [probeSchedule] at h
  | cons x xs ih =>
    intro t i h
    cases i with
    | zero =>
      have h0 : 0 < (probeSchedule env xs (t + env.dur x.1)).length := by
        simp only [probeSchedule, List.length_cons] at h
        omega
      have hh := probeSchedule_head env xs (t + env.dur x.1) h0
      simp only [probeSchedule, List.get_cons_succ, List.get_cons_zero] at *
      rw [hh]
      simp
    | succ i =>
      simp only [probeSchedule, List.get_cons_succ] at *
      exact ih _ _ _

/-- Claim C9 amended: within one health-check round the probes are issued
strictly sequentially in map-iteration order — each probe is awaited to
completion before the next one is issued, so every probe starts exactly at
the finish time of the previous probed worker's probe, and a slow or
timed-out probe delays every later probe in the round. -/
theorem C9_amended_sequential_probes (env : ProbeEnv) (m : Manager) (i : Nat)
    (h : i + 1 < (performHealthChecksSchedule m env).length) :
    ((performHealthChecksSchedule m env).get ⟨i + 1, h⟩).2 =
      ((performHealthChecksSchedule m env).get ⟨i, by omega⟩).2 +
        env.dur ((performHealthChecksSchedule m env).get ⟨i, by omega⟩).1 :=
  probeSchedule_step env (probeTargets m) 0 i h


/-- Witness for C9 amended. -/
theorem C9_amended_witness :
    ((performHealthChecksSchedule hcMgr slowEnv).get ⟨1, by decide⟩).2 =
      ((performHealthChecksSchedule hcMgr slowEnv).get ⟨0, by decide⟩).2 +
        slowEnv.dur ((performHealthChecksSchedule hcMgr slowEnv).get ⟨0, by decide⟩).1 :=
  C9_amended_sequential_probes slowEnv hcMgr 0 (by decide)

/-- Claim C10: a successful spawn launches two distinct OS child processes —
the directly spawned one (pid `nextPid`) and the one launched by the stdio
client transport (pid `nextPid + 1`); every RPC of the startup (connect
handshake and capability queries) targets the transport's process, the
SIGTERM issued by `stopPlugin` targets only the directly spawned process,
and a tool invocation reaches only the transport's process — the directly
spawned process never receives any RPC. -/
theorem C10_two_processes (opts : ManagerOptions) (now nextPid : Nat)
    (w : WorkerResponses) (p : PluginProcess) (tn : String) (hw : goodResponses w) :
    (spawnPluginProcess opts now nextPid w p).1.processPid = some nextPid ∧
    (spawnPluginProcess opts now nextPid w p).1.transportPid = some (nextPid + 1) ∧
    (spawnPluginProcess opts now nextPid w p).1.processPid ≠
      (spawnPluginProcess opts now nextPid w p).1.transportPid ∧
    (∀ e ∈ (spawnPluginProcess opts now nextPid w p).2, ∀ pid s,
      e = Effect.rpc pid s → pid = nextPid + 1) ∧
    Effect.kill nextPid "SIGTERM" ∈ (stopPlugin (spawnPluginProcess opts now nextPid w p).1).2 ∧
    (∀ e ∈ (stopPlugin (spawnPluginProcess opts now nextPid w p).1).2, ∀ pid s,
      e = Effect.kill pid s → pid = nextPid) ∧
    (executeToolInPlugin
        { opts := opts,
          plugins := [((spawnPluginProcess opts now nextPid w p).1.config.name,
            (spawnPluginProcess opts now nextPid w p).1)] }
        (spawnPluginProcess opts now nextPid w p).1.config.name tn).2 =
      [Effect.rpc (nextPid + 1) ("tools/call " ++ tn)] := by
  obtain ⟨hc, ⟨ts, hts⟩, ⟨rs, hrs⟩, ⟨qs, hqs⟩⟩ := hw
  simp [spawnPluginProcess, loadPluginCapabilities, stopPlugin, executeToolInPlugin,
    lookupPlugin, hc, hts, hrs, hqs]


/-- Witness for C10. -/
theorem C10_two_processes_witness :
    (spawnPluginProcess defOpts 0 10 okW (mkPluginProcess exConfig)).1.processPid = some 10 ∧
    (spawnPluginProcess defOpts 0 10 okW (mkPluginProcess exConfig)).1.transportPid = some 11 :=
  have h := C10_two_processes defOpts 0 10 okW (mkPluginProcess exConfig) "t"
    ⟨rfl, ⟨_, rfl⟩, ⟨_, rfl⟩, ⟨_, rfl⟩⟩
  ⟨h.1, h.2.1⟩

end MCP
